import Mathlib

/-!
Verification development for the ENEM dataframe-engine benchmark harness.

The harness (`main.py`) repeatedly times and memory-profiles dataframe
operations. We embed the measurement loop, the scenario orchestration and the
result consolidation shallowly: machine floats become rationals, wall-clock and
RSS readings become per-trial oracle values, the mutable `results` dictionary
of five column lists becomes an explicit `Results` record threaded through the
loop, and the error prints become an explicit log channel (the informational
prints are not modelled).
-/

/-- `TEST_REPEATS = 10` (main.py line 12). -/
def TEST_REPEATS : Nat := 10

/-- The base dataset path used by `get_dataset_paths` (main.py line 18). -/
def base_path : String := "microdados_enem_2023/DADOS/MICRODADOS_ENEM_2023"

/-- Embedding of `get_dataset_paths` (main.py lines 16-29): returns
`(csv_path, parquet_path, encoding)` for a scenario name. -/
def get_dataset_paths (cenario : String) : String × String × String :=
  if cenario = "grande" then
    (base_path ++ ".csv", base_path ++ ".parquet", "latin-1")
  else
    (base_path ++ "_" ++ cenario ++ ".csv", base_path ++ "_" ++ cenario ++ ".parquet", "utf-8")

/-- The `results` accumulator (main.py lines 32-38): five parallel column
lists. -/
structure Results where
  engine : List String
  operation : List String
  scenario : List String
  time_seconds : List ℚ
  memory_mb : List ℚ
  deriving DecidableEq, Repr

/-- The initial (empty) `results` value of main.py lines 32-38. -/
def results : Results := ⟨[], [], [], [], []⟩

/-- The five column lists of the accumulator have a common length. -/
def Results.balanced (r : Results) : Prop :=
  r.operation.length = r.engine.length ∧
  r.scenario.length = r.engine.length ∧
  r.time_seconds.length = r.engine.length ∧
  r.memory_mb.length = r.engine.length

instance (r : Results) : Decidable r.balanced := by
  unfold Results.balanced; infer_instance

/-- The environment observed by one trial of the benchmark loop: the values
returned by `get_memory_usage()` during the baseline sampling loop (indexed by
sampling position), the two `time.time()` readings, the outcome of
`func(*args)` (either a raised exception's message or normal return), and the
`get_memory_usage()` reading taken after execution. -/
structure TrialEnv where
  memAt : Nat → ℚ
  startTime : ℚ
  outcome : Except String Unit
  endTime : ℚ
  endMem : ℚ

/-- Whether the trial's operation raised an exception. -/
def TrialEnv.raised (env : TrialEnv) : Bool :=
  match env.outcome with
  | .error _ => true
  | .ok _ => false

/-- Python's built-in `min` on a list (total: `0` on `[]`, which the harness
never hits since it always samples three readings). -/
def pymin : List ℚ → ℚ
  | [] => 0
  | x :: xs => xs.foldl min x

/-- The `mem_readings` list built by the sampling loop (main.py lines 57-60):
three successive `get_memory_usage()` readings. -/
def mem_readings (env : TrialEnv) : List ℚ :=
  (List.range 3).map env.memAt

/-- `start_mem = min(mem_readings)` (main.py line 61). -/
def start_mem (env : TrialEnv) : ℚ :=
  pymin (mem_readings env)

/-- `exec_time = time.time() - start_time` (main.py lines 63 and 74). -/
def exec_time (env : TrialEnv) : ℚ :=
  env.endTime - env.startTime

/-- `peak_mem = max(0.1, end_mem - start_mem)` (main.py lines 77-84). -/
def peak_mem (env : TrialEnv) : ℚ :=
  max (1/10) (env.endMem - start_mem env)

/-- The error line printed when a trial's operation raises
(main.py line 71): `f"Erro em {engine} - {operation}: {e}"`. -/
def errorLine (engine operation e : String) : String :=
  "Erro em " ++ engine ++ " - " ++ operation ++ ": " ++ e

/-- One iteration of the `for _ in range(TEST_REPEATS)` body of `benchmark`
(main.py lines 48-96) on a state of (results accumulator, error log): sample
the baseline, run the operation; on an exception print the error line and
`continue`; otherwise append one element to each of the five column lists. -/
def runTrial (engine operation cenario : String) (env : TrialEnv)
    (st : Results × List String) : Results × List String :=
  let startM := start_mem env
  match env.outcome with
  | .error e => (st.1, st.2 ++ [errorLine engine operation e])
  | .ok _ =>
    let t := exec_time env
    let m := max (1/10) (env.endMem - startM)
    ({ engine := st.1.engine ++ [engine]
       operation := st.1.operation ++ [operation]
       scenario := st.1.scenario ++ [cenario]
       time_seconds := st.1.time_seconds ++ [t]
       memory_mb := st.1.memory_mb ++ [m] },
     st.2)

/-- Embedding of `benchmark(func, *args, scenario=..., engine=..., operation=...)`
(main.py lines 47-96): run `TEST_REPEATS` trials, trial `i` observing
environment `trials i`, threading the accumulator and the error log. -/
def benchmark (trials : Nat → TrialEnv) (cenario engine operation : String)
    (st : Results × List String) : Results × List String :=
  (List.range TEST_REPEATS).foldl
    (fun acc i => runTrial engine operation cenario (trials i) acc) st

/-- Number of indices in `range TEST_REPEATS` whose trial raises. -/
def errorCount (trials : Nat → TrialEnv) : Nat :=
  ((List.range TEST_REPEATS).filter (fun i => (trials i).raised)).length

/-- Number of indices in `range TEST_REPEATS` whose trial succeeds. -/
def okCount (trials : Nat → TrialEnv) : Nat :=
  ((List.range TEST_REPEATS).filter (fun i => !(trials i).raised)).length

/-- Outcome of the module-level command-line handling (main.py lines 243-250):
either `sys.exit(1)` or proceeding with a chosen scenario name. -/
inductive StartupResult where
  | exited (code : Nat)
  | proceed (cenario : String)
  deriving DecidableEq, Repr

/-- Embedding of main.py lines 243-250, taking `sys.argv[1:]`: with an
argument, accept it only if it is one of the three scenario names, else exit
with code 1; with no argument default to `"pequeno"`. Note that this startup
code consults only the argument list; it never touches the file system. -/
def startup (argv : List String) : StartupResult :=
  match argv with
  | [] => .proceed "pequeno"
  | a :: _ =>
    if a = "pequeno" ∨ a = "medio" ∨ a = "grande" then .proceed a
    else .exited 1

/-- The engine order of the module-level loop (main.py lines 258-295). -/
def engineOrder : List String := ["duckdb", "polars", "pandas"]

/-- The operation-name order zipped against each engine's function list
(main.py lines 297-308). -/
def operationOrder : List String :=
  ["read_csv", "read_parquet", "filter", "join", "agg", "write_csv", "write_parquet"]

/-- Embedding of the module-level benchmarking loops (main.py lines 258-329):
for each engine and each operation name, invoke `benchmark` on the shared
state. The environment oracle gives, per (engine, operation, trial index), the
readings and the outcome of the operation call; a missing dataset file shows
up here as every outcome being an error (the raised `FileNotFoundError`). -/
def scenarioRun (env : String → String → Nat → TrialEnv) (cenario : String)
    (st : Results × List String) : Results × List String :=
  engineOrder.foldl
    (fun acc e =>
      operationOrder.foldl (fun acc2 o => benchmark (env e o) cenario e o acc2) acc)
    st

/-- A raw-results row of a per-scenario benchmark CSV:
(engine, operation, scenario, time_seconds, memory_mb). -/
abbrev SampleRow := String × String × String × ℚ × ℚ

/-- The file-system view seen by `consolidar_resultados`: which paths exist,
and what `pd.read_csv` yields on each (rows, or a raised exception's
message). -/
structure FS where
  fileExists : String → Bool
  parse : String → Except String (List SampleRow)

/-- `f"benchmark_resultados_{cenario}.csv"` (main.py line 350). -/
def arquivoName (cenario : String) : String :=
  "benchmark_resultados_" ++ cenario ++ ".csv"

/-- `cenarios_possiveis` (main.py line 347). -/
def cenarios_possiveis : List String := ["pequeno", "medio", "grande"]

/-- The `arquivos_benchmark` discovery list (main.py lines 346-353): the
scenario-named files that exist on disk, in the fixed scenario order. -/
def arquivos_benchmark (fileExists : String → Bool) : List String :=
  (cenarios_possiveis.map arquivoName).filter fileExists

/-- Embedding of the read-and-concatenate loop of `consolidar_resultados`
(main.py lines 342-392), returning the rows of `df_consolidado` and the error
log. Each discovered file is parsed; on success its rows are appended in
order (`pd.concat`), on failure one `"Erro ao ler ..."` line is logged and the
table is left unchanged. The source's informational prints, its early return
when no file is found (the fold over an empty list already yields the empty
table), and the final write of the nonempty table are not modelled. -/
def consolidar_resultados (fs : FS) : List SampleRow × List String :=
  (arquivos_benchmark fs.fileExists).foldl
    (fun acc arquivo =>
      match fs.parse arquivo with
      | .ok rows => (acc.1 ++ rows, acc.2)
      | .error e => (acc.1, acc.2 ++ ["Erro ao ler " ++ arquivo ++ ": " ++ e]))
    ([], [])

/-- The rows a file contributes to consolidation, if it parses. -/
def parsedRows (fs : FS) (arquivo : String) : Option (List SampleRow) :=
  match fs.parse arquivo with
  | .ok rows => some rows
  | .error _ => none

/-- Whether parsing a file fails. -/
def parseFails (fs : FS) (arquivo : String) : Bool :=
  match fs.parse arquivo with
  | .ok _ => false
  | .error _ => true

/-- The column names `generate_plots.py` assigns to the aggregated CSV it
loads (generate_plots.py lines 57-58). -/
def report_columns : List String :=
  ["index", "engine", "operation", "scenario",
   "time_mean", "time_std", "memory_mean", "memory_std"]

/-- The schema the reporting layer actually consumes after dropping the
`index` column (generate_plots.py lines 61-62). -/
def report_schema : List String :=
  report_columns.filter (fun c => c ≠ "index")

/-- The grouping keys of the consolidator's summary
(main.py line 380). -/
def resumo_group_keys : List String := ["scenario", "engine", "operation"]

/-- The aggregation spec of the consolidator's summary (main.py line 381):
mean and standard deviation of each measurement column. -/
def resumo_agg_stats : List (String × List String) :=
  [("time_seconds", ["mean", "std"]), ("memory_mb", ["mean", "std"])]

/-- Modelled from the spec: no code under src writes the aggregated file
(`resultados_geral_agrupado.csv`) that the reporting layer reads — only its
consumer and the consolidator's printed summary exist. The spec names the
aggregated stat column for raw measurement column `c` and statistic `st` by
the measurement's short name (`time_seconds → time`, `memory_mb → memory`)
suffixed with the statistic. -/
def statColumnName (c st : String) : String :=
  (if c = "time_seconds" then "time"
   else if c = "memory_mb" then "memory"
   else c) ++ "_" ++ st

/-- The stat columns of the aggregated table, derived from the consolidator's
aggregation spec via `statColumnName`. -/
def resumo_stat_columns : List String :=
  resumo_agg_stats.flatMap (fun p => p.2.map (statColumnName p.1))

/-- Modelled from the spec: the aggregated row schema
`{engine, operation, scenario, time_mean, time_std, memory_mean, memory_std}`
of the table the harness owes the reporting layer. -/
def aggregated_row_schema : List String :=
  ["engine", "operation", "scenario",
   "time_mean", "time_std", "memory_mean", "memory_std"]

/-! ### Helper lemmas -/

theorem runTrial_of_raised (engine operation cenario : String) (env : TrialEnv)
    (st : Results × List String) (e : String) (h : env.outcome = .error e) :
    runTrial engine operation cenario env st
      = (st.1, st.2 ++ [errorLine engine operation e]) := by
  simp [runTrial, h]

theorem runTrial_of_ok (engine operation cenario : String) (env : TrialEnv)
    (st : Results × List String) (h : env.outcome = .ok ()) :
    runTrial engine operation cenario env st
      = ({ engine := st.1.engine ++ [engine]
           operation := st.1.operation ++ [operation]
           scenario := st.1.scenario ++ [cenario]
           time_seconds := st.1.time_seconds ++ [exec_time env]
           memory_mb := st.1.memory_mb ++ [peak_mem env] },
         st.2) := by
  simp [runTrial, h, exec_time, peak_mem]

theorem raised_iff_error (env : TrialEnv) :
    env.raised = true ↔ ∃ e, env.outcome = .error e := by
  unfold TrialEnv.raised
  cases h : env.outcome <;> simp

theorem not_raised_iff_ok (env : TrialEnv) :
    env.raised = false ↔ env.outcome = .ok () := by
  unfold TrialEnv.raised
  cases h : env.outcome <;> simp

theorem foldl_runTrial_lengths (trials : Nat → TrialEnv)
    (cenario engine operation : String) (l : List Nat) :
    ∀ st : Results × List String,
      ((l.foldl (fun acc i => runTrial engine operation cenario (trials i) acc) st).1.engine.length
          = st.1.engine.length + (l.filter (fun i => !(trials i).raised)).length) ∧
      ((l.foldl (fun acc i => runTrial engine operation cenario (trials i) acc) st).1.operation.length
          = st.1.operation.length + (l.filter (fun i => !(trials i).raised)).length) ∧
      ((l.foldl (fun acc i => runTrial engine operation cenario (trials i) acc) st).1.scenario.length
          = st.1.scenario.length + (l.filter (fun i => !(trials i).raised)).length) ∧
      ((l.foldl (fun acc i => runTrial engine operation cenario (trials i) acc) st).1.time_seconds.length
          = st.1.time_seconds.length + (l.filter (fun i => !(trials i).raised)).length) ∧
      ((l.foldl (fun acc i => runTrial engine operation cenario (trials i) acc) st).1.memory_mb.length
          = st.1.memory_mb.length + (l.filter (fun i => !(trials i).raised)).length) ∧
      ((l.foldl (fun acc i => runTrial engine operation cenario (trials i) acc) st).2.length
          = st.2.length + (l.filter (fun i => (trials i).raised)).length) := by
  induction l with
  | nil => intro st; simp
  | cons a as ih =>
    intro st
    cases hr : (trials a).raised with
    | true =>
      obtain ⟨e, he⟩ := (raised_iff_error (trials a)).mp hr
      rw [List.foldl_cons, runTrial_of_raised engine operation cenario (trials a) st e he]
      obtain ⟨s1, s2, s3, s4, s5, s6⟩ := ih (st.1, st.2 ++ [errorLine engine operation e])
      simp [List.filter_cons, hr] at s1 s2 s3 s4 s5 s6 ⊢
      refine ⟨?_, ?_, ?_, ?_, ?_, ?_⟩ <;> omega
    | false =>
      have he := (not_raised_iff_ok (trials a)).mp hr
      rw [List.foldl_cons, runTrial_of_ok engine operation cenario (trials a) st he]
      obtain ⟨s1, s2, s3, s4, s5, s6⟩ :=
        ih ({ engine := st.1.engine ++ [engine]
              operation := st.1.operation ++ [operation]
              scenario := st.1.scenario ++ [cenario]
              time_seconds := st.1.time_seconds ++ [exec_time (trials a)]
              memory_mb := st.1.memory_mb ++ [peak_mem (trials a)] },
            st.2)
      simp [List.filter_cons, hr] at s1 s2 s3 s4 s5 s6 ⊢
      refine ⟨?_, ?_, ?_, ?_, ?_, ?_⟩ <;> omega

theorem filter_length_add_not (p : Nat → Bool) (l : List Nat) :
    (l.filter p).length + (l.filter (fun i => !p i)).length = l.length := by
  induction l with
  | nil => rfl
  | cons a as ih =>
    cases h : p a <;> simp [List.filter_cons, h, ← ih] <;> omega

theorem foldl_runTrial_allfail (trials : Nat → TrialEnv)
    (cenario engine operation : String) (l : List Nat)
    (hall : ∀ i, (trials i).raised = true) :
    ∀ st : Results × List String,
      ((l.foldl (fun acc i => runTrial engine operation cenario (trials i) acc) st).1 = st.1) ∧
      ((l.foldl (fun acc i => runTrial engine operation cenario (trials i) acc) st).2.length
          = st.2.length + l.length) := by
  induction l with
  | nil => intro st; simp
  | cons a as ih =>
    intro st
    obtain ⟨e, he⟩ := (raised_iff_error (trials a)).mp (hall a)
    rw [List.foldl_cons, runTrial_of_raised engine operation cenario (trials a) st e he]
    obtain ⟨h1, h2⟩ := ih (st.1, st.2 ++ [errorLine engine operation e])
    refine ⟨by simpa using h1, ?_⟩
    simp at h2 ⊢
    omega

theorem benchmark_allfail (trials : Nat → TrialEnv) (cenario engine operation : String)
    (hall : ∀ i, (trials i).raised = true) (st : Results × List String) :
    (benchmark trials cenario engine operation st).1 = st.1 ∧
    (benchmark trials cenario engine operation st).2.length
        = st.2.length + TEST_REPEATS := by
  have h := foldl_runTrial_allfail trials cenario engine operation
    (List.range TEST_REPEATS) hall st
  simpa [benchmark] using h

theorem opsFoldl_allfail (envf : String → String → Nat → TrialEnv) (cenario engine : String)
    (hall : ∀ o i, (envf engine o i).raised = true) (ops : List String) :
    ∀ st : Results × List String,
      ((ops.foldl (fun acc2 o => benchmark (envf engine o) cenario engine o acc2) st).1 = st.1) ∧
      ((ops.foldl (fun acc2 o => benchmark (envf engine o) cenario engine o acc2) st).2.length
          = st.2.length + TEST_REPEATS * ops.length) := by
  induction ops with
  | nil => intro st; simp
  | cons o os ih =>
    intro st
    rw [List.foldl_cons]
    obtain ⟨b1, b2⟩ := benchmark_allfail (envf engine o) cenario engine o (hall o) st
    obtain ⟨h1, h2⟩ := ih (benchmark (envf engine o) cenario engine o st)
    refine ⟨by rw [h1, b1], ?_⟩
    rw [h2, b2, List.length_cons, Nat.mul_succ]
    omega

theorem scenarioRun_allfail (envf : String → String → Nat → TrialEnv) (cenario : String)
    (hall : ∀ e o i, (envf e o i).raised = true) (st : Results × List String) :
    (scenarioRun envf cenario st).1 = st.1 ∧
    (scenarioRun envf cenario st).2.length = st.2.length + 210 := by
  unfold scenarioRun
  have hop : ∀ e st', _ := fun e st' => opsFoldl_allfail envf cenario e (hall e) operationOrder st'
  obtain ⟨a1, a2⟩ := hop "duckdb" st
  simp only [engineOrder, List.foldl_cons, List.foldl_nil]
  obtain ⟨b1, b2⟩ := hop "polars"
    (operationOrder.foldl (fun acc2 o => benchmark (envf "duckdb" o) cenario "duckdb" o acc2) st)
  obtain ⟨c1, c2⟩ := hop "pandas"
    (operationOrder.foldl (fun acc2 o => benchmark (envf "polars" o) cenario "polars" o acc2)
      (operationOrder.foldl (fun acc2 o => benchmark (envf "duckdb" o) cenario "duckdb" o acc2) st))
  refine ⟨by rw [c1, b1, a1], ?_⟩
  rw [c2, b2, a2]
  simp [operationOrder, TEST_REPEATS]

theorem consolidar_foldl (fs : FS) (files : List String) :
    ∀ acc : List SampleRow × List String,
      ((files.foldl
          (fun acc arquivo =>
            match fs.parse arquivo with
            | .ok rows => (acc.1 ++ rows, acc.2)
            | .error e => (acc.1, acc.2 ++ ["Erro ao ler " ++ arquivo ++ ": " ++ e]))
          acc).1
        = acc.1 ++ (files.filterMap (parsedRows fs)).flatten) ∧
      ((files.foldl
          (fun acc arquivo =>
            match fs.parse arquivo with
            | .ok rows => (acc.1 ++ rows, acc.2)
            | .error e => (acc.1, acc.2 ++ ["Erro ao ler " ++ arquivo ++ ": " ++ e]))
          acc).2.length
        = acc.2.length + (files.filter (parseFails fs)).length) := by
  induction files with
  | nil => intro acc; simp
  | cons a as ih =>
    intro acc
    rw [List.foldl_cons]
    cases hp : fs.parse a with
    | ok rows =>
      obtain ⟨h1, h2⟩ := ih (acc.1 ++ rows, acc.2)
      constructor
      · simp only [hp]
        rw [h1]
        simp [List.filterMap_cons, parsedRows, hp]
      · simp only [hp]
        rw [h2]
        simp [List.filter_cons, parseFails, hp]
    | error e =>
      obtain ⟨h1, h2⟩ := ih (acc.1, acc.2 ++ ["Erro ao ler " ++ a ++ ": " ++ e])
      constructor
      · simp only [hp]
        rw [h1]
        simp [List.filterMap_cons, parsedRows, hp]
      · simp only [hp]
        rw [h2]
        simp [List.filter_cons, parseFails, hp]
        omega

theorem errorLine_toList (engine operation e : String) :
    (errorLine engine operation e).toList
      = "Erro em ".toList ++ engine.toList ++ " - ".toList ++ operation.toList
        ++ ": ".toList ++ e.toList := rfl

/-! ### Concrete environments for closed checks -/

/-- A successful trial whose memory reading after the operation is far below
the baseline (the raw delta is negative). -/
def okShrinkEnv : TrialEnv :=
  { memAt := fun i => 100 - (i : ℚ)
    startTime := 5
    outcome := .ok ()
    endTime := 7
    endMem := 50 }

/-- A trial whose operation raises an exception with message `"boom"`. -/
def failEnvEx : TrialEnv :=
  { memAt := fun _ => 100
    startTime := 0
    outcome := .error "boom"
    endTime := 0
    endMem := 0 }

/-- The trial environment seen when the scenario's dataset file is missing:
every operation call raises `FileNotFoundError`. -/
def fnfEnv : TrialEnv :=
  { memAt := fun _ => 100
    startTime := 0
    outcome := .error "FileNotFoundError"
    endTime := 0
    endMem := 0 }

/-- The environment oracle of a run whose dataset file is missing: every
(engine, operation, trial) observes `fnfEnv`. -/
def fnfOracle : String → String → Nat → TrialEnv := fun _ _ _ => fnfEnv

/-- A file system for consolidation checks: the `pequeno` file exists and
parses to one row, the `medio` file is missing, and the `grande` file exists
but fails to parse. -/
def fsEx : FS :=
  { fileExists := fun f => f = arquivoName "pequeno" || f = arquivoName "grande"
    parse := fun f =>
      if f = arquivoName "pequeno" then .ok [("pandas", "read_csv", "pequeno", 1, 2)]
      else .error "ParserError" }

/-! ### Claims -/

/-- C1: every recorded trial sample has elapsed time `exec_time ≥ 0` (given
that the second clock reading is not earlier than the first) and memory delta
`peak_mem ≥ 0.1`; whenever the end-memory reading minus the baseline is below
`0.1` (including negative raw deltas), the recorded delta is exactly `0.1`. -/
theorem trial_sample_time_nonneg_memory_floored (engine operation cenario : String)
    (env : TrialEnv) (st : Results × List String)
    (hok : env.outcome = .ok ()) (ht : env.startTime ≤ env.endTime) :
    (runTrial engine operation cenario env st).1.time_seconds
        = st.1.time_seconds ++ [exec_time env] ∧
    (runTrial engine operation cenario env st).1.memory_mb
        = st.1.memory_mb ++ [peak_mem env] ∧
    0 ≤ exec_time env ∧
    (1/10 : ℚ) ≤ peak_mem env ∧
    (env.endMem - start_mem env < 1/10 → peak_mem env = 1/10) := by
  rw [runTrial_of_ok engine operation cenario env st hok]
  refine ⟨rfl, rfl, ?_, le_max_left _ _, fun hlt => max_eq_left hlt.le⟩
  simpa [exec_time] using sub_nonneg.mpr ht

theorem trial_sample_time_nonneg_memory_floored_witness :
    okShrinkEnv.outcome = .ok () ∧ okShrinkEnv.startTime ≤ okShrinkEnv.endTime ∧
    ((runTrial "pandas" "read_csv" "pequeno" okShrinkEnv (results, [])).1.time_seconds
        = results.time_seconds ++ [exec_time okShrinkEnv] ∧
     (runTrial "pandas" "read_csv" "pequeno" okShrinkEnv (results, [])).1.memory_mb
        = results.memory_mb ++ [peak_mem okShrinkEnv] ∧
     0 ≤ exec_time okShrinkEnv ∧
     (1/10 : ℚ) ≤ peak_mem okShrinkEnv ∧
     (okShrinkEnv.endMem - start_mem okShrinkEnv < 1/10 → peak_mem okShrinkEnv = 1/10)) :=
  ⟨rfl, by norm_num [okShrinkEnv],
   trial_sample_time_nonneg_memory_floored "pandas" "read_csv" "pequeno" okShrinkEnv
     (results, []) rfl (by norm_num [okShrinkEnv])⟩

/-- C2: `benchmark` attempts exactly `TEST_REPEATS = 10` trials per
(engine, operation, scenario) triple; the number of samples it records is the
repeat count minus the number of trials that raised, and with no failures it
records exactly 10 samples. -/
theorem benchmark_sample_count (trials : Nat → TrialEnv) (cenario engine operation : String)
    (st : Results × List String) :
    (benchmark trials cenario engine operation st).1.time_seconds.length
        = st.1.time_seconds.length + (TEST_REPEATS - errorCount trials) ∧
    (benchmark trials cenario engine operation st).2.length
        = st.2.length + errorCount trials ∧
    errorCount trials ≤ TEST_REPEATS ∧
    (errorCount trials = 0 →
      (benchmark trials cenario engine operation st).1.time_seconds.length
          = st.1.time_seconds.length + 10) := by
  obtain ⟨-, -, -, h4, -, h6⟩ :=
    foldl_runTrial_lengths trials cenario engine operation (List.range TEST_REPEATS) st
  have hsum := filter_length_add_not (fun i => (trials i).raised) (List.range TEST_REPEATS)
  simp only [List.length_range] at hsum
  have hT : TEST_REPEATS = 10 := rfl
  unfold benchmark errorCount
  refine ⟨by omega, by omega, by omega, fun h0 => by omega⟩

theorem benchmark_sample_count_witness :
    (benchmark (fun _ => okShrinkEnv) "pequeno" "pandas" "read_csv"
        (results, [])).1.time_seconds.length
      = results.time_seconds.length + (TEST_REPEATS - errorCount (fun _ => okShrinkEnv)) ∧
    (benchmark (fun _ => okShrinkEnv) "pequeno" "pandas" "read_csv" (results, [])).2.length
      = ([] : List String).length + errorCount (fun _ => okShrinkEnv) ∧
    errorCount (fun _ => okShrinkEnv) ≤ TEST_REPEATS ∧
    (errorCount (fun _ => okShrinkEnv) = 0 →
      (benchmark (fun _ => okShrinkEnv) "pequeno" "pandas" "read_csv"
          (results, [])).1.time_seconds.length
        = results.time_seconds.length + 10) :=
  benchmark_sample_count (fun _ => okShrinkEnv) "pequeno" "pandas" "read_csv" (results, [])

/-- C3: a trial whose operation raises records no sample (the accumulator is
unchanged), logs exactly one error line, and the loop continues: over the
whole `benchmark` invocation each of the 10 attempted trials contributes
exactly one outcome — a log line if it raised, a sample otherwise — so a
failed trial is never retried and never aborts the remaining trials. -/
theorem failed_trial_skipped (engine operation cenario e : String) (env : TrialEnv)
    (st : Results × List String) (herr : env.outcome = .error e) :
    (runTrial engine operation cenario env st).1 = st.1 ∧
    (runTrial engine operation cenario env st).2 = st.2 ++ [errorLine engine operation e] ∧
    (∀ trials : Nat → TrialEnv, ∀ st2 : Results × List String,
      ((benchmark trials cenario engine operation st2).2.length - st2.2.length) +
      ((benchmark trials cenario engine operation st2).1.time_seconds.length
          - st2.1.time_seconds.length)
        = TEST_REPEATS) := by
  rw [runTrial_of_raised engine operation cenario env st e herr]
  refine ⟨rfl, rfl, fun trials st2 => ?_⟩
  obtain ⟨-, -, -, h4, -, h6⟩ :=
    foldl_runTrial_lengths trials cenario engine operation (List.range TEST_REPEATS) st2
  have hsum := filter_length_add_not (fun i => (trials i).raised) (List.range TEST_REPEATS)
  simp only [List.length_range] at hsum
  unfold benchmark
  omega

theorem failed_trial_skipped_witness :
    failEnvEx.outcome = .error "boom" ∧
    ((runTrial "duckdb" "join" "medio" failEnvEx (results, [])).1 = results ∧
     (runTrial "duckdb" "join" "medio" failEnvEx (results, [])).2
        = [] ++ [errorLine "duckdb" "join" "boom"] ∧
     (∀ trials : Nat → TrialEnv, ∀ st2 : Results × List String,
       ((benchmark trials "medio" "duckdb" "join" st2).2.length - st2.2.length) +
       ((benchmark trials "medio" "duckdb" "join" st2).1.time_seconds.length
           - st2.1.time_seconds.length)
         = TEST_REPEATS)) :=
  ⟨rfl, failed_trial_skipped "duckdb" "join" "medio" "boom" failEnvEx (results, []) rfl⟩

/-- C4 counterexample: the claim says a missing input dataset file is fatal at
orchestrator start and aborts the scenario run. In the code it is not: with a
valid scenario argument the startup check passes (it inspects only
`sys.argv`), and when the dataset file is missing — so every operation call
raises `FileNotFoundError` — the scenario run still executes all 3 × 7 × 10
trials to completion, absorbing each failure per-trial: it records no sample
and logs 210 per-trial error lines instead of aborting. -/
theorem missing_dataset_not_fatal_cex :
    startup ["pequeno"] = StartupResult.proceed "pequeno" ∧
    (scenarioRun (fun _ _ _ => fnfEnv) "pequeno" (results, [])).1 = results ∧
    (scenarioRun (fun _ _ _ => fnfEnv) "pequeno" (results, [])).2.length = 210 := by
  obtain ⟨h1, h2⟩ :=
    scenarioRun_allfail (fun _ _ _ => fnfEnv) "pequeno" (fun _ _ _ => rfl) (results, [])
  exact ⟨by decide, h1, by simpa using h2⟩

/-- C4 amended: a missing input dataset file is not detected at orchestrator
start — the startup code validates only the scenario-name argument and never
consults the file system — and it does not abort the scenario run; instead the
missing file surfaces as an exception in every trial, each absorbed as a
per-trial recoverable failure: the run completes all 21 (engine, operation)
triples, records no sample, and logs one error line per attempted trial
(210 = 3 · 7 · `TEST_REPEATS`). -/
theorem missing_dataset_absorbed (envf : String → String → Nat → TrialEnv)
    (hall : ∀ e o i, (envf e o i).raised = true) (st : Results × List String) :
    startup ["pequeno"] = StartupResult.proceed "pequeno" ∧
    (scenarioRun envf "pequeno" st).1 = st.1 ∧
    (scenarioRun envf "pequeno" st).2.length = st.2.length + 210 := by
  obtain ⟨h1, h2⟩ := scenarioRun_allfail envf "pequeno" hall st
  exact ⟨by decide, h1, h2⟩

theorem missing_dataset_absorbed_witness :
    (∀ (e o : String) (i : Nat), (fnfOracle e o i).raised = true) ∧
    (startup ["pequeno"] = StartupResult.proceed "pequeno" ∧
     (scenarioRun fnfOracle "pequeno" (results, ["prior"])).1 = results ∧
     (scenarioRun fnfOracle "pequeno" (results, ["prior"])).2.length
        = ["prior"].length + 210) :=
  ⟨fun _ _ _ => rfl,
   missing_dataset_absorbed fnfOracle (fun _ _ _ => rfl) (results, ["prior"])⟩

/-- C5 counterexample: the claim says the error line logged for a failed trial
includes the scenario name. It does not: a failed trial of
(duckdb, read_csv) in scenario `pequeno` logs
`"Erro em duckdb - read_csv: boom"`, which does not contain `"pequeno"`. -/
theorem error_line_omits_scenario_cex :
    (runTrial "duckdb" "read_csv" "pequeno" failEnvEx (results, [])).2
        = ["Erro em duckdb - read_csv: boom"] ∧
    ¬ "pequeno".toList <:+: "Erro em duckdb - read_csv: boom".toList := by
  exact ⟨rfl, by decide⟩

/-- C5 amended: the error line logged for a failed trial includes the engine,
the operation and the exception message, but not the scenario: the logged line
is exactly `"Erro em {engine} - {operation}: {e}"`, and the trial's scenario
name appears in it only if it happens to occur inside that text. -/
theorem error_line_context (engine operation cenario e : String) (env : TrialEnv)
    (st : Results × List String) (herr : env.outcome = .error e) :
    (runTrial engine operation cenario env st).2 = st.2 ++ [errorLine engine operation e] ∧
    engine.toList <:+: (errorLine engine operation e).toList ∧
    operation.toList <:+: (errorLine engine operation e).toList ∧
    e.toList <:+: (errorLine engine operation e).toList := by
  refine ⟨by rw [runTrial_of_raised engine operation cenario env st e herr], ?_, ?_, ?_⟩
  · refine ⟨"Erro em ".toList,
      " - ".toList ++ operation.toList ++ ": ".toList ++ e.toList, ?_⟩
    rw [errorLine_toList]
    simp [List.append_assoc]
  · refine ⟨"Erro em ".toList ++ engine.toList ++ " - ".toList,
      ": ".toList ++ e.toList, ?_⟩
    rw [errorLine_toList]
    simp [List.append_assoc]
  · refine ⟨"Erro em ".toList ++ engine.toList ++ " - ".toList ++ operation.toList
      ++ ": ".toList, [], ?_⟩
    rw [errorLine_toList]
    simp [List.append_assoc]

theorem error_line_context_witness :
    failEnvEx.outcome = .error "boom" ∧
    ((runTrial "duckdb" "read_csv" "pequeno" failEnvEx (results, [])).2
        = [] ++ [errorLine "duckdb" "read_csv" "boom"] ∧
     "duckdb".toList <:+: (errorLine "duckdb" "read_csv" "boom").toList ∧
     "read_csv".toList <:+: (errorLine "duckdb" "read_csv" "boom").toList ∧
     "boom".toList <:+: (errorLine "duckdb" "read_csv" "boom").toList) :=
  ⟨rfl, error_line_context "duckdb" "read_csv" "pequeno" "boom" failEnvEx (results, []) rfl⟩

/-- C6: the aggregated results table owed to the reporting layer has exactly
the fixed column schema {engine, operation, scenario, time_mean, time_std,
memory_mean, memory_std}: the schema of the spec-modelled aggregated file
equals, column for column, the schema `generate_plots.py` consumes after
dropping its `index` column, and its columns are exactly the consolidator's
grouping keys plus the mean/std stat columns of the two measurements. -/
theorem aggregated_schema_matches_reporting :
    aggregated_row_schema = report_schema ∧
    aggregated_row_schema.toFinset
        = (resumo_group_keys ++ resumo_stat_columns).toFinset := by
  constructor <;> decide

/-- C7: the memory baseline of every trial is the minimum — not the mean — of
the 3 memory readings taken in quick succession just before the operation is
invoked: `start_mem` is a member of the readings list that is a lower bound of
it. -/
theorem baseline_is_min_of_readings (env : TrialEnv) :
    (mem_readings env).length = 3 ∧
    start_mem env ∈ mem_readings env ∧
    ∀ x ∈ mem_readings env, start_mem env ≤ x := by
  have hread : mem_readings env = [env.memAt 0, env.memAt 1, env.memAt 2] := rfl
  have hsm : start_mem env = min (min (env.memAt 0) (env.memAt 1)) (env.memAt 2) := rfl
  refine ⟨rfl, ?_, ?_⟩
  · rw [hread, hsm]
    rcases min_cases (min (env.memAt 0) (env.memAt 1)) (env.memAt 2) with ⟨h2, -⟩ | ⟨h2, -⟩
    · rw [h2]
      rcases min_cases (env.memAt 0) (env.memAt 1) with ⟨h1, -⟩ | ⟨h1, -⟩
      · rw [h1]; exact List.mem_cons_self _ _
      · rw [h1]; exact List.mem_cons_of_mem _ (List.mem_cons_self _ _)
    · rw [h2]
      exact List.mem_cons_of_mem _ (List.mem_cons_of_mem _ (List.mem_cons_self _ _))
  · intro x hx
    rw [hread] at hx
    rw [hsm]
    simp only [List.mem_cons, List.not_mem_nil, or_false] at hx
    rcases hx with h | h | h <;> subst h
    · exact le_trans (min_le_left _ _) (min_le_left _ _)
    · exact le_trans (min_le_left _ _) (min_le_right _ _)
    · exact min_le_right _ _

theorem baseline_is_min_of_readings_witness :
    (mem_readings okShrinkEnv).length = 3 ∧
    start_mem okShrinkEnv ∈ mem_readings okShrinkEnv ∧
    ∀ x ∈ mem_readings okShrinkEnv, start_mem okShrinkEnv ≤ x :=
  baseline_is_min_of_readings okShrinkEnv

/-- C8: `get_dataset_paths` is a fixed, hardcoded mapping: the `"grande"` tier
maps to the base CSV/Parquet paths with `latin-1` encoding, and every other
tier name maps to the scenario-suffixed paths with `utf-8` encoding, a
different encoding than the largest tier's. -/
theorem get_dataset_paths_mapping (cenario : String) (h : cenario ≠ "grande") :
    get_dataset_paths "grande" = (base_path ++ ".csv", base_path ++ ".parquet", "latin-1") ∧
    get_dataset_paths cenario
      = (base_path ++ "_" ++ cenario ++ ".csv",
         base_path ++ "_" ++ cenario ++ ".parquet", "utf-8") ∧
    ("latin-1" : String) ≠ "utf-8" := by
  refine ⟨by simp [get_dataset_paths], ?_, by decide⟩
  simp [get_dataset_paths, h]

theorem get_dataset_paths_mapping_witness :
    ("pequeno" : String) ≠ "grande" ∧
    (get_dataset_paths "grande" = (base_path ++ ".csv", base_path ++ ".parquet", "latin-1") ∧
     get_dataset_paths "pequeno"
       = (base_path ++ "_" ++ "pequeno" ++ ".csv",
          base_path ++ "_" ++ "pequeno" ++ ".parquet", "utf-8") ∧
     ("latin-1" : String) ≠ "utf-8") :=
  ⟨by decide, get_dataset_paths_mapping "pequeno" (by decide)⟩

/-- C9: the consolidated table holds exactly the rows of the scenario-named
result files that exist and parse, concatenated in discovery order; a missing
scenario file is never discovered (hence skipped), and each discovered file
that fails to parse contributes one logged error line and no rows while
consolidation continues over the remaining files. -/
theorem consolidar_resultados_spec (fs : FS) :
    (consolidar_resultados fs).1
        = ((arquivos_benchmark fs.fileExists).filterMap (parsedRows fs)).flatten ∧
    (consolidar_resultados fs).2.length
        = ((arquivos_benchmark fs.fileExists).filter (parseFails fs)).length ∧
    ∀ cenario : String, fs.fileExists (arquivoName cenario) = false →
      arquivoName cenario ∉ arquivos_benchmark fs.fileExists := by
  obtain ⟨h1, h2⟩ := consolidar_foldl fs (arquivos_benchmark fs.fileExists) ([], [])
  refine ⟨by simpa [consolidar_resultados] using h1,
          by simpa [consolidar_resultados] using h2, ?_⟩
  intro c hc hmem
  have := List.of_mem_filter hmem
  rw [hc] at this
  exact Bool.false_ne_true this

theorem consolidar_resultados_spec_witness :
    (consolidar_resultados fsEx).1
        = ((arquivos_benchmark fsEx.fileExists).filterMap (parsedRows fsEx)).flatten ∧
    (consolidar_resultados fsEx).2.length
        = ((arquivos_benchmark fsEx.fileExists).filter (parseFails fsEx)).length ∧
    ∀ cenario : String, fsEx.fileExists (arquivoName cenario) = false →
      arquivoName cenario ∉ arquivos_benchmark fsEx.fileExists :=
  consolidar_resultados_spec fsEx

/-- C10: the five column lists of the results accumulator stay equally long
across every `benchmark` invocation; each successful trial appends exactly one
element to each of the five lists, and a failed trial appends to none of them,
so the accumulator never holds a partial sample row. -/
theorem results_columns_balanced (trials : Nat → TrialEnv)
    (cenario engine operation : String) (st : Results × List String)
    (h : st.1.balanced) :
    (benchmark trials cenario engine operation st).1.balanced ∧
    (∀ env : TrialEnv, ∀ st2 : Results × List String, env.outcome = .ok () →
      (runTrial engine operation cenario env st2).1.engine.length
          = st2.1.engine.length + 1 ∧
      (runTrial engine operation cenario env st2).1.operation.length
          = st2.1.operation.length + 1 ∧
      (runTrial engine operation cenario env st2).1.scenario.length
          = st2.1.scenario.length + 1 ∧
      (runTrial engine operation cenario env st2).1.time_seconds.length
          = st2.1.time_seconds.length + 1 ∧
      (runTrial engine operation cenario env st2).1.memory_mb.length
          = st2.1.memory_mb.length + 1) ∧
    (∀ env : TrialEnv, ∀ st2 : Results × List String, ∀ e : String,
      env.outcome = .error e →
      (runTrial engine operation cenario env st2).1 = st2.1) := by
  refine ⟨?_, ?_, ?_⟩
  · obtain ⟨h1, h2, h3, h4, h5, -⟩ :=
      foldl_runTrial_lengths trials cenario engine operation (List.range TEST_REPEATS) st
    obtain ⟨b1, b2, b3, b4⟩ := h
    unfold benchmark Results.balanced
    omega
  · intro env st2 hok
    rw [runTrial_of_ok engine operation cenario env st2 hok]
    simp
  · intro env st2 e herr
    rw [runTrial_of_raised engine operation cenario env st2 e herr]

theorem results_columns_balanced_witness :
    results.balanced ∧
    ((benchmark (fun _ => okShrinkEnv) "pequeno" "polars" "agg"
        (results, [])).1.balanced ∧
     (∀ env : TrialEnv, ∀ st2 : Results × List String, env.outcome = .ok () →
       (runTrial "polars" "agg" "pequeno" env st2).1.engine.length
           = st2.1.engine.length + 1 ∧
       (runTrial "polars" "agg" "pequeno" env st2).1.operation.length
           = st2.1.operation.length + 1 ∧
       (runTrial "polars" "agg" "pequeno" env st2).1.scenario.length
           = st2.1.scenario.length + 1 ∧
       (runTrial "polars" "agg" "pequeno" env st2).1.time_seconds.length
           = st2.1.time_seconds.length + 1 ∧
       (runTrial "polars" "agg" "pequeno" env st2).1.memory_mb.length
           = st2.1.memory_mb.length + 1) ∧
     (∀ env : TrialEnv, ∀ st2 : Results × List String, ∀ e : String,
       env.outcome = .error e →
       (runTrial "polars" "agg" "pequeno" env st2).1 = st2.1)) :=
  ⟨by decide,
   results_columns_balanced (fun _ => okShrinkEnv) "pequeno" "polars" "agg"
     (results, []) (by decide)⟩
